import Mathlib

/-!
Shallow embedding of the Bang & Olufsen HACS integration.

The definitions below model `custom_components/bangolufsen/media_player.py`
and `custom_components/bangolufsen/select.py`.  Vendor SDK calls and
Home Assistant dispatcher sends are reified as an `Action` effect list;
entity-registry lookups are passed in as functions.  Python `int` volume
levels become `Int`, Python `float` volume fractions become `Rat`
(the clamping logic only compares and adds, which is exact).
-/

namespace BangOlufsen

/-- Modelled from the spec: `const.py` is not among the sources in scope, so the
`SOURCE_ENUM` members referenced by `media_player.py` are modelled as distinct
string constants; the code paths only compare them for equality. -/
def SOURCE_ENUM_lineIn : String := "Line-In"

/-- Modelled from the spec: `SOURCE_ENUM.bluetooth` as a distinct string. -/
def SOURCE_ENUM_bluetooth : String := "Bluetooth"

/-- Modelled from the spec: `SOURCE_ENUM.spdif` as a distinct string. -/
def SOURCE_ENUM_spdif : String := "Optical"

/-- Modelled from the spec: `SOURCE_ENUM.chromeCast` as a distinct string. -/
def SOURCE_ENUM_chromeCast : String := "Chromecast"

/-- Modelled from the spec: `SOURCE_ENUM.uriStreamer` as a distinct string. -/
def SOURCE_ENUM_uriStreamer : String := "URIStreamer"

/-- Modelled from the spec: the dispatcher topic suffix `BEOLINK_VOLUME` from
`const.py`; only its identity matters, the topics are distinct channels keyed
by the multi-room identifier. -/
def BEOLINK_VOLUME : String := "BEOLINK_VOLUME"

/-- Modelled from the spec: the dispatcher topic suffix
`BEOLINK_RELATIVE_VOLUME` from `const.py`. -/
def BEOLINK_RELATIVE_VOLUME : String := "BEOLINK_RELATIVE_VOLUME"

/-- Modelled from the spec: the dispatcher topic suffix
`BEOLINK_LISTENER_COMMAND` from `const.py`. -/
def BEOLINK_LISTENER_COMMAND : String := "BEOLINK_LISTENER_COMMAND"

/-- Topic `f"{jid}_{BEOLINK_VOLUME}"` used in `async_beolink_set_volume`. -/
def volumeTopic (jid : String) : String := jid ++ "_" ++ BEOLINK_VOLUME

/-- Topic `f"{jid}_{BEOLINK_RELATIVE_VOLUME}"` used in
`async_beolink_set_relative_volume`. -/
def relativeVolumeTopic (jid : String) : String := jid ++ "_" ++ BEOLINK_RELATIVE_VOLUME

/-- Topic `f"{jid}_{BEOLINK_LISTENER_COMMAND}"` used for the leader-to-listener
fan-out. -/
def listenerCommandTopic (jid : String) : String := jid ++ "_" ++ BEOLINK_LISTENER_COMMAND

/-- The `mozart_api` `BeolinkLeader` object stored in
`PlaybackContentMetadata.remote_leader`: a JID and a friendly name. -/
structure BeolinkLeader where
  jid : String
  friendlyName : String
deriving DecidableEq, Repr

/-- The fields of the `mozart_api` `PlaybackContentMetadata` object that
`media_player.py` reads in the modelled code paths: `title`, `art`
(a list of art entries, modelled by their keys; only `len(art) == 0`
is inspected by the `source` property) and `remote_leader`. -/
structure PlaybackContentMetadata where
  title : Option String := none
  art : Option (List String) := none
  remoteLeader : Option BeolinkLeader := none
deriving DecidableEq, Repr

/-- The fields of the `mozart_api` `Source` object stored in
`self._source_change` that the `source` property reads: `id` and `name`. -/
structure SourceChange where
  id : Option String := none
  name : Option String := none
deriving DecidableEq, Repr

/-- Embeds the `source` property of `BangOlufsenMediaPlayer`
(`media_player.py` lines 823-858): three successive heuristic overrides on
top of the last source-change notification.  `hasattr(metadata, "title")`
and `hasattr(metadata, "art")` always hold for a `PlaybackContentMetadata`
instance, so they are not modelled as separate cases. -/
def sourceProperty (metadata : PlaybackContentMetadata) (sourceChange : SourceChange) :
    Option String :=
  if metadata.title = some SOURCE_ENUM_lineIn then some SOURCE_ENUM_lineIn
  else if metadata.title = some SOURCE_ENUM_bluetooth then some SOURCE_ENUM_bluetooth
  else if sourceChange.id = some SOURCE_ENUM_bluetooth ∨
      sourceChange.id = some SOURCE_ENUM_lineIn ∨
      sourceChange.id = some SOURCE_ENUM_spdif then some SOURCE_ENUM_chromeCast
  else if metadata.art = some [] ∧ sourceChange.name = some SOURCE_ENUM_bluetooth then
    some SOURCE_ENUM_bluetooth
  else sourceChange.name

/-- Embeds `BangOlufsenMediaPlayer._update_beolink` (`media_player.py` lines
580-656) restricted to the remote-leader resolution and the `group_members`
list.  The `beolink` extra-state attribute assembled from the peer list is
display-only and not read by any modelled operation, so it is not part of the
result.  `resolve` stands for `_get_entity_id_from_jid` (an entity-registry
lookup returning `entity_id` or `None`); the Python code wraps its result in
`typing.cast(str, ...)`, which is a runtime no-op, so a failed lookup leaves a
`none` entry in the list.  `beolinkListeners` is the listener list fetched from
the client in the non-listener branch. -/
def update_beolink (beolinkJid : String) (metadataRemoteLeader : Option BeolinkLeader)
    (currentSource : Option String) (beolinkListeners : List String)
    (resolve : String → Option String) : Option BeolinkLeader × List (Option String) :=
  let remoteLeader :=
    if currentSource = some SOURCE_ENUM_lineIn ∨ currentSource = some SOURCE_ENUM_uriStreamer
    then none
    else metadataRemoteLeader
  match remoteLeader with
  | some leader => (some leader, [resolve leader.jid, resolve beolinkJid])
  | none =>
    if beolinkListeners.length > 0 then
      (none, resolve beolinkJid :: beolinkListeners.map resolve)
    else (none, [])

/-- Embeds the chain `_update_playback_metadata` then `_update_beolink`
(`media_player.py` lines 694-702): the stored metadata becomes `metadata`, and
the Beolink recomputation reads the `source` property computed from that
metadata and the last source-change notification. -/
def update_beolink_from_metadata (beolinkJid : String) (metadata : PlaybackContentMetadata)
    (sourceChange : SourceChange) (beolinkListeners : List String)
    (resolve : String → Option String) : Option BeolinkLeader × List (Option String) :=
  update_beolink beolinkJid metadata.remoteLeader (sourceProperty metadata sourceChange)
    beolinkListeners resolve

/-- Embeds `async_volume_up` (`media_player.py` lines 892-902).  `storedLevel`
is `self._volume.level.level` collapsed to an `Option`: `none` models both a
missing `level` object and a missing value.  The Python guard
`not self._volume.level or not self._volume.level.level` also fires on the
falsy integer `0`.  Returns the level sent to `set_current_volume_level`, or
`none` when only a warning is logged. -/
def async_volume_up (storedLevel : Option Int) (volumeStep maxVolume : Int) : Option Int :=
  match storedLevel with
  | none => none
  | some level =>
    if level = 0 then none
    else some (min (level + volumeStep) maxVolume)

/-- Embeds `async_volume_down` (`media_player.py` lines 904-914): same guard as
`async_volume_up`, then `max(self._volume.level.level - self._volume_step, 0)`.
The configured maximum volume is not consulted. -/
def async_volume_down (storedLevel : Option Int) (volumeStep : Int) : Option Int :=
  match storedLevel with
  | none => none
  | some level =>
    if level = 0 then none
    else some (max (level - volumeStep) 0)

/-- Embeds the `volume_level` property (`media_player.py` lines 747-751):
`float(self._volume.level.level / 100)` when both truthiness checks pass,
otherwise `None`.  A stored level of `0` is falsy in Python and yields `None`. -/
def volume_level (storedLevel : Option Int) : Option Rat :=
  match storedLevel with
  | none => none
  | some level => if level = 0 then none else some ((level : Rat) / 100)

/-- Embeds `async_set_relative_volume_level` (`media_player.py` lines
1280-1295): `none` when the guard `not self.volume_level` fires (warning
logged, no client call), otherwise the clamped level passed on to
`async_set_volume_level`. -/
def async_set_relative_volume_level (storedLevel : Option Int) (volume : Rat) : Option Rat :=
  match volume_level storedLevel with
  | none => none
  | some vl =>
    if vl = 0 then none
    else if vl + volume ≥ 1 then some 1
    else if vl + volume ≤ 0 then some 0
    else some (vl + volume)

/-- Python `int(...)` applied to a float: truncation toward zero. -/
def pyTrunc (q : Rat) : Int := if 0 ≤ q then q.floor else q.ceil

/-- One observable effect of a modelled operation: a vendor-client call, a
dispatcher send, a cooperative sleep, or a log line. -/
inductive Action where
  | setCurrentVolumeLevel (level : Int)
  | joinLatestBeolinkExperience
  | joinBeolinkPeer (jid : String)
  | postBeolinkExpand (jid : String)
  | sleepOneSecond
  | setActiveSource (key : String)
  | postRemoteTrigger (key : String)
  | dispatchVolume (topic : String) (volumeLevel : Rat)
  | dispatchListenerCommand (topic : String) (command : String) (volumeLevel : Rat)
  | warnLog (message : String)
  | errorLog (message : String)
deriving DecidableEq, Repr

/-- Identifies the actions that are calls to the vendor client (as opposed to
dispatcher sends, sleeps and log lines). -/
def isClientCall : Action → Bool
  | .setCurrentVolumeLevel _ => true
  | .joinLatestBeolinkExperience => true
  | .joinBeolinkPeer _ => true
  | .postBeolinkExpand _ => true
  | .setActiveSource _ => true
  | .postRemoteTrigger _ => true
  | _ => false

/-- Identifies the `post_beolink_expand` client calls among the actions. -/
def isExpandAction : Action → Bool
  | .postBeolinkExpand _ => true
  | _ => false

/-- Embeds `async_set_volume_level` (`media_player.py` lines 916-921):
unconditionally sends `int(volume * 100)` to `set_current_volume_level`. -/
def async_set_volume_level (volume : Rat) : List Action :=
  [.setCurrentVolumeLevel (pyTrunc (volume * 100))]

/-- Effect-list form of `async_set_relative_volume_level`: a warning when the
guard fires, otherwise the single client call made via
`async_set_volume_level`. -/
def async_set_relative_volume_level_actions (storedLevel : Option Int) (volume : Rat) :
    List Action :=
  match async_set_relative_volume_level storedLevel volume with
  | none => [.warnLog "Error setting volume"]
  | some newVolume => async_set_volume_level newVolume

/-- Effect-list form of `async_volume_up`. -/
def async_volume_up_actions (storedLevel : Option Int) (volumeStep maxVolume : Int) :
    List Action :=
  match async_volume_up storedLevel volumeStep maxVolume with
  | none => [.warnLog "Error setting volume"]
  | some newVolume => [.setCurrentVolumeLevel newVolume]

/-- Effect-list form of `async_volume_down`. -/
def async_volume_down_actions (storedLevel : Option Int) (volumeStep : Int) : List Action :=
  match async_volume_down storedLevel volumeStep with
  | none => [.warnLog "Error setting volume"]
  | some newVolume => [.setCurrentVolumeLevel newVolume]

/-- Embeds `async_beolink_set_volume` (`media_player.py` lines 1258-1278).
With a remote leader, one dispatch to the leader's volume topic; without one,
the local `async_set_volume_level` call followed by one
`"set_volume_level"` dispatch per known Beolink listener.  The service
parameter is a string converted with `float(...)`; it is modelled as the
parsed `Rat`. -/
def async_beolink_set_volume (remoteLeader : Option BeolinkLeader)
    (beolinkListeners : List String) (volumeLevel : Rat) : List Action :=
  match remoteLeader with
  | some leader => [.dispatchVolume (volumeTopic leader.jid) volumeLevel]
  | none =>
    async_set_volume_level volumeLevel ++
      beolinkListeners.map (fun jid =>
        .dispatchListenerCommand (listenerCommandTopic jid) "set_volume_level" volumeLevel)

/-- Embeds `async_beolink_set_relative_volume` (`media_player.py` lines
1297-1317).  With a remote leader, one dispatch to the leader's
relative-volume topic; without one, the local
`async_set_relative_volume_level` call (which may be only a warning) followed
by one `"set_relative_volume_level"` dispatch per known Beolink listener. -/
def async_beolink_set_relative_volume (remoteLeader : Option BeolinkLeader)
    (beolinkListeners : List String) (storedLevel : Option Int) (volumeLevel : Rat) :
    List Action :=
  match remoteLeader with
  | some leader => [.dispatchVolume (relativeVolumeTopic leader.jid) volumeLevel]
  | none =>
    async_set_relative_volume_level_actions storedLevel volumeLevel ++
      beolinkListeners.map (fun jid =>
        .dispatchListenerCommand (listenerCommandTopic jid) "set_relative_volume_level"
          volumeLevel)

/-- Embeds `async_beolink_join` (`media_player.py` lines 1156-1164).
`validJid` stands for the external SDK check `check_valid_jid`. -/
def async_beolink_join (validJid : String → Bool) (beolinkJid : Option String) : List Action :=
  match beolinkJid with
  | none => [.joinLatestBeolinkExperience]
  | some jid => if validJid jid then [.joinBeolinkPeer jid] else []

/-- Embeds `async_beolink_expand` plus the `_beolink_expand` task it spawns
(`media_player.py` lines 1166-1180): the first JID failing `check_valid_jid`
aborts with an error log; otherwise each JID gets one `post_beolink_expand`
call followed by `asyncio.sleep(1)`. -/
def async_beolink_expand (validJid : String → Bool) (beolinkJids : List String) : List Action :=
  match beolinkJids.find? (fun jid => !validJid jid) with
  | some badJid => [.errorLog ("Invalid Beolink JID: " ++ badJid)]
  | none => beolinkJids.flatMap (fun jid => [.postBeolinkExpand jid, .sleepOneSecond])

/-- Embeds `async_join_players` (`media_player.py` lines 1013-1033).
`resolveJid` stands for `_get_beolink_jid` (registry plus config-entry
lookup).  With no targets, `async_beolink_join()`; otherwise one warning per
unresolvable target (the rest are still processed) and then
`async_beolink_expand` on the resolved JIDs. -/
def async_join_players (resolveJid : String → Option String) (validJid : String → Bool)
    (groupMembers : List String) : List Action :=
  if groupMembers.length = 0 then async_beolink_join validJid none
  else
    (groupMembers.flatMap (fun member =>
      match resolveJid member with
      | none => [Action.warnLog ("Error adding " ++ member ++ " to group")]
      | some _ => [])) ++
      async_beolink_expand validJid (groupMembers.filterMap resolveJid)

/-- Embeds `async_select_source` (`media_player.py` lines 992-1011).  The
source catalogs `self._sources` and `self._audio_sources` are Python dicts
mapping an opaque key to a label; they are modelled as key-value lists in
insertion order.  An unknown label logs an error and makes no client call;
a known label resolves to the first key carrying it and issues exactly one
call, `set_active_source` for audio-catalog labels and `post_remote_trigger`
otherwise. -/
def async_select_source (sources audioSources : List (String × String))
    (sourceLabel : String) : List Action :=
  if !(sources.map Prod.snd).contains sourceLabel then
    [.errorLog ("Invalid source: " ++ sourceLabel)]
  else
    match sources.find? (fun p => p.2 == sourceLabel) with
    | none => []
    | some (key, _) =>
      if (audioSources.map Prod.snd).contains sourceLabel then [.setActiveSource key]
      else [.postRemoteTrigger key]

/-- The fields of a `mozart_api` `Scene` read by
`BangOlufsenSelectListeningPosition._update_listening_positions`:
`tags` and `label`. -/
structure Scene where
  tags : Option (List String) := none
  label : Option String := none
deriving DecidableEq, Repr

/-- The Python qualification test `scene.tags is not None and
"listeningposition" in scene.tags and scene.label is not None`
(`select.py` lines 182-186). -/
def listeningPositionQualifies (scene : Scene) : Bool :=
  match scene.tags, scene.label with
  | some tags, some _ => tags.contains "listeningposition"
  | _, _ => false

/-- Accumulator form of the scene loop in `_update_listening_positions`
(`select.py` lines 179-197).  `positions` models the insertion-ordered dict
`self._listening_positions` as a label-to-key list, `warnings` records the
`(label, scene key)` pairs of the duplicate-name warnings logged while
skipping. -/
def update_listening_positions_aux :
    List (String × String) → List (String × String) → List (String × Scene) →
    List (String × String) × List (String × String)
  | positions, warnings, [] => (positions, warnings)
  | positions, warnings, (sceneKey, scene) :: rest =>
    match scene.tags, scene.label with
    | some tags, some label =>
      if tags.contains "listeningposition" then
        if (positions.map Prod.fst).contains label then
          update_listening_positions_aux positions (warnings ++ [(label, sceneKey)]) rest
        else
          update_listening_positions_aux (positions ++ [(label, sceneKey)]) warnings rest
      else update_listening_positions_aux positions warnings rest
    | _, _ => update_listening_positions_aux positions warnings rest

/-- Embeds the catalog rebuild of `_update_listening_positions`
(`select.py` lines 162-203): the loop starts from the empty dict
(`self._listening_positions = {}` on line 176).  The first component is the
rebuilt label-to-key catalog, whose key list is `self._attr_options`; the
second collects the duplicate-name warnings.  The active-option guess
(line 200) mutates only `self._attr_current_option` and is display-only, so
it is not modelled. -/
def update_listening_positions (scenes : List (String × Scene)) :
    List (String × String) × List (String × String) :=
  update_listening_positions_aux [] [] scenes

/-- Concrete entity-registry resolution used to evaluate the theorems on
explicit inputs: only the device's own JID `self.jid` is registered. -/
def toyResolve : String → Option String := fun jid =>
  if jid = "self.jid" then some "media_player.self_device" else none

/-- Concrete `_get_beolink_jid` resolution used to evaluate `async_join_players`
on explicit inputs: only the entity `media_player.a` has a configured JID. -/
def toyJoinResolve : String → Option String := fun entityId =>
  if entityId = "media_player.a" then some "1111.1111111.11111111@products.bang-olufsen.com"
  else none

/-- Concrete stand-in for the external `check_valid_jid` that accepts every
string, used to evaluate the theorems on explicit inputs. -/
def toyAllValid : String → Bool := fun _ => true

/-- Concrete source catalog used to evaluate `async_select_source`
on explicit inputs. -/
def toySources : List (String × String) := [("key1", "Radio"), ("key2", "HDMI A")]

/-- Concrete audio-source catalog used to evaluate `async_select_source`
on explicit inputs. -/
def toyAudioSources : List (String × String) := [("key1", "Radio")]

/-- Concrete scene catalog used to evaluate `update_listening_positions` on
explicit inputs: two listening-position scenes carrying the same label. -/
def toyScenes : List (String × Scene) :=
  [("scene1", ⟨some ["listeningposition"], some "Sofa"⟩),
    ("scene2", ⟨some ["listeningposition"], some "Sofa"⟩)]

/-!
Theorems settling the claims.
-/

/-- Claim C4, counterexample: with a stored level of 90, a step of 5 and a
configured maximum of 50, the level sent to the client is 50, which is not
greater than or equal to the previous level 90, and the previous level was
not at the maximum.  The claim as stated is false on the code. -/
theorem volume_up_counterexample :
    async_volume_up (some 90) 5 50 = some 50 ∧
      ¬ ((90 : Int) ≤ 50 ∨ (90 : Int) = 50) := by
  decide

/-- Claim C4, amended: for every step-up request with a known nonzero stored
level and a nonnegative configured step, the level sent to the client is at
most the configured maximum, and at least the previous level unless the
previous level was already at or above the maximum. -/
theorem volume_up_clamped (level volumeStep maxVolume newLevel : Int)
    (hstep : 0 ≤ volumeStep)
    (h : async_volume_up (some level) volumeStep maxVolume = some newLevel) :
    newLevel ≤ maxVolume ∧ (level ≤ maxVolume → level ≤ newLevel) := by
  unfold async_volume_up at h
  by_cases h0 : level = 0
  · simp [h0] at h
  · simp only [h0, if_false] at h
    cases h
    refine ⟨min_le_right _ _, fun hm => le_min (by linarith) hm⟩

/-- Claim C4, witness: the amended statement evaluated at a stored level of
50, a step of 5 and a maximum of 100. -/
theorem volume_up_clamped_witness :
    (55 : Int) ≤ 100 ∧ ((50 : Int) ≤ 100 → (50 : Int) ≤ 55) :=
  volume_up_clamped 50 5 100 55 (by decide) (by decide)

/-- Claim C5: for every step-down request with a known nonzero stored level,
a nonnegative step and a nonnegative previous level, the level sent to the
client is at least 0 and at most the previous level; the configured maximum
is not consulted (the embedding of `async_volume_down` takes no maximum), and
whenever the unclamped decrement still exceeds a bound, so does the level
sent, so the result may exceed the configured maximum if the previous level
did. -/
theorem volume_down_floor (level volumeStep newLevel maxVolume : Int)
    (hstep : 0 ≤ volumeStep) (hlevel : 0 ≤ level)
    (h : async_volume_down (some level) volumeStep = some newLevel) :
    0 ≤ newLevel ∧ newLevel ≤ level ∧
      (maxVolume < level - volumeStep → maxVolume < newLevel) := by
  unfold async_volume_down at h
  by_cases h0 : level = 0
  · simp [h0] at h
  · simp only [h0, if_false] at h
    cases h
    refine ⟨le_max_right _ _, max_le (by linarith) hlevel, fun hm => lt_max_of_lt_left hm⟩

/-- Claim C5, witness: the statement evaluated at a stored level of 90, a step
of 5 and a configured maximum of 50: the level sent is 85, which is below the
previous level, nonnegative, and above the configured maximum. -/
theorem volume_down_floor_witness :
    (0 : Int) ≤ 85 ∧ (85 : Int) ≤ 90 ∧ ((50 : Int) < 90 - 5 → (50 : Int) < 85) :=
  volume_down_floor 90 5 85 50 (by decide) (by decide) (by decide)

/-- Claim C6: whenever `async_set_relative_volume_level` passes a level on to
`async_set_volume_level`, that level lies in the closed interval `[0, 1]`,
for any stored level and any offset, including offsets whose sum with the
current level overflows either bound. -/
theorem set_relative_volume_clamped (storedLevel : Option Int) (volume newVolume : Rat)
    (h : async_set_relative_volume_level storedLevel volume = some newVolume) :
    0 ≤ newVolume ∧ newVolume ≤ 1 := by
  unfold async_set_relative_volume_level at h
  rcases hv : volume_level storedLevel with _ | vl
  · rw [hv] at h; cases h
  · rw [hv] at h
    by_cases h0 : vl = 0
    · simp [h0] at h
    · simp only [h0, if_false] at h
      by_cases h1 : vl + volume ≥ 1
      · rw [if_pos h1] at h; cases h; exact ⟨by norm_num, le_refl 1⟩
      · rw [if_neg h1] at h
        by_cases h2 : vl + volume ≤ 0
        · rw [if_pos h2] at h; cases h; exact ⟨le_refl 0, by norm_num⟩
        · rw [if_neg h2] at h; cases h
          exact ⟨le_of_not_le h2, le_of_not_le h1⟩

/-- Claim C6, witness: at a stored level of 50 and an offset of 9/10 the sum
would be 1.4, and the level passed on is clamped to 1, inside `[0, 1]`. -/
theorem set_relative_volume_clamped_witness :
    (0 : Rat) ≤ 1 ∧ (1 : Rat) ≤ 1 :=
  set_relative_volume_clamped (some 50) (9 / 10) 1
    (by norm_num [async_set_relative_volume_level, volume_level])

/-- Claim C10: each of step-up, step-down and set-relative-volume, when the
stored volume level is absent or equal to 0, produces exactly one warning log
and no client call. -/
theorem volume_zero_guard (volumeStep maxVolume : Int) (volume : Rat) :
    async_volume_up_actions none volumeStep maxVolume = [.warnLog "Error setting volume"] ∧
    async_volume_up_actions (some 0) volumeStep maxVolume = [.warnLog "Error setting volume"] ∧
    async_volume_down_actions none volumeStep = [.warnLog "Error setting volume"] ∧
    async_volume_down_actions (some 0) volumeStep = [.warnLog "Error setting volume"] ∧
    async_set_relative_volume_level_actions none volume = [.warnLog "Error setting volume"] ∧
    async_set_relative_volume_level_actions (some 0) volume = [.warnLog "Error setting volume"] ∧
    [Action.warnLog "Error setting volume"].filter isClientCall = [] := by
  refine ⟨rfl, ?_, rfl, ?_, rfl, ?_, rfl⟩ <;>
    simp [async_volume_up_actions, async_volume_down_actions,
      async_set_relative_volume_level_actions, async_volume_up, async_volume_down,
      async_set_relative_volume_level, volume_level]

/-- Claim C3, counterexample: a device with no remote leader, one known
listener and an unknown stored volume level handles a Beolink
set-relative-volume command by logging a warning instead of changing its own
volume — no client call is made — yet it still dispatches the command to the
listener's topic.  The claim's assertion that the device "applies the volume
change locally" is false on the code at this input. -/
theorem beolink_relative_volume_counterexample :
    (async_beolink_set_relative_volume none ["listener.jid"] none (1 / 10)).filter
        isClientCall = [] ∧
      async_beolink_set_relative_volume none ["listener.jid"] none (1 / 10) =
        [.warnLog "Error setting volume",
          .dispatchListenerCommand (listenerCommandTopic "listener.jid")
            "set_relative_volume_level" (1 / 10)] :=
  ⟨rfl, rfl⟩

/-- Claim C3, amended: for every Beolink volume command (set-volume or
set-relative-volume), a device with a non-null remote leader emits exactly one
dispatch to the leader's topic and makes no client call (its own volume is
unchanged); a device with no remote leader invokes the local volume change —
which for set-volume always issues the client call, and for
set-relative-volume issues it exactly when a current volume level is known and
nonzero, logging a warning otherwise — and in every case additionally
dispatches the same command to the topic of every entry in its known
listeners list. -/
theorem beolink_volume_relay (remoteLeader : Option BeolinkLeader)
    (beolinkListeners : List String) (storedLevel : Option Int) (volumeLevel : Rat) :
    (∀ leader, remoteLeader = some leader →
      async_beolink_set_volume remoteLeader beolinkListeners volumeLevel =
          [.dispatchVolume (volumeTopic leader.jid) volumeLevel] ∧
        async_beolink_set_relative_volume remoteLeader beolinkListeners storedLevel
            volumeLevel =
          [.dispatchVolume (relativeVolumeTopic leader.jid) volumeLevel] ∧
        (async_beolink_set_volume remoteLeader beolinkListeners volumeLevel).filter
          isClientCall = [] ∧
        (async_beolink_set_relative_volume remoteLeader beolinkListeners storedLevel
            volumeLevel).filter isClientCall = []) ∧
    (remoteLeader = none →
      async_beolink_set_volume remoteLeader beolinkListeners volumeLevel =
          Action.setCurrentVolumeLevel (pyTrunc (volumeLevel * 100)) ::
            beolinkListeners.map (fun jid =>
              Action.dispatchListenerCommand (listenerCommandTopic jid) "set_volume_level"
                volumeLevel) ∧
        async_beolink_set_relative_volume remoteLeader beolinkListeners storedLevel
            volumeLevel =
          async_set_relative_volume_level_actions storedLevel volumeLevel ++
            beolinkListeners.map (fun jid =>
              Action.dispatchListenerCommand (listenerCommandTopic jid)
                "set_relative_volume_level" volumeLevel) ∧
        (∀ newVolume, async_set_relative_volume_level storedLevel volumeLevel =
            some newVolume →
          async_set_relative_volume_level_actions storedLevel volumeLevel =
            [Action.setCurrentVolumeLevel (pyTrunc (newVolume * 100))]) ∧
        (async_set_relative_volume_level storedLevel volumeLevel = none →
          async_set_relative_volume_level_actions storedLevel volumeLevel =
            [Action.warnLog "Error setting volume"])) := by
  constructor
  · rintro leader rfl
    exact ⟨rfl, rfl, rfl, rfl⟩
  · rintro rfl
    refine ⟨rfl, rfl, fun newVolume h => ?_, fun h => ?_⟩
    · simp [async_set_relative_volume_level_actions, h, async_set_volume_level]
    · simp [async_set_relative_volume_level_actions, h]

/-- Claim C3, witness: the amended statement at a device with remote leader
`other.jid` and one listener; the set-volume command becomes a single dispatch
to the leader's volume topic with no client call. -/
theorem beolink_volume_relay_witness :
    async_beolink_set_volume (some ⟨"other.jid", "Other"⟩) ["listener.jid"] (1 / 2) =
        [.dispatchVolume (volumeTopic "other.jid") (1 / 2)] ∧
      (async_beolink_set_volume (some ⟨"other.jid", "Other"⟩) ["listener.jid"]
          (1 / 2)).filter isClientCall = [] := by
  have h := (beolink_volume_relay (some ⟨"other.jid", "Other"⟩) ["listener.jid"] none
    (1 / 2)).1 ⟨"other.jid", "Other"⟩ rfl
  exact ⟨h.1, h.2.2.1⟩

/-- Claim C1, counterexample: a device with a null remote leader and one
listener whose JID `unknown.jid` resolves to no registry entity recomputes its
group-members list as `[some "media_player.self_device", none]`: the
unresolvable listener appears as a null entry (Python's `cast(str, None)` is
a runtime no-op), it is not omitted.  The claim as stated is false on the
code. -/
theorem beolink_group_members_counterexample :
    (update_beolink "self.jid" none none ["unknown.jid"] toyResolve).2 =
        [some "media_player.self_device", none] ∧
      none ∈ (update_beolink "self.jid" none none ["unknown.jid"] toyResolve).2 := by
  refine ⟨rfl, ?_⟩
  rw [show (update_beolink "self.jid" none none ["unknown.jid"] toyResolve).2 =
    [some "media_player.self_device", none] from rfl]
  exact List.mem_cons.2 (Or.inr (List.mem_cons.2 (Or.inl rfl)))

/-- Claim C1, amended: for every Beolink group-state update where the device
has a null remote leader and `N > 0` listeners, the recomputed group-members
list is the device's own resolved entity ID followed by one entry per
listener in order — the listener's resolved entity ID, or a null entry when
the listener JID resolves to no registry entity (it is not omitted) — so the
list has length `N + 1` and contains the device's own entity ID. -/
theorem update_beolink_leader_members (beolinkJid : String) (currentSource : Option String)
    (beolinkListeners : List String) (resolve : String → Option String)
    (selfEntity : String)
    (hn : 0 < beolinkListeners.length)
    (hself : resolve beolinkJid = some selfEntity) :
    (update_beolink beolinkJid none currentSource beolinkListeners resolve).2 =
        some selfEntity :: beolinkListeners.map resolve ∧
      (update_beolink beolinkJid none currentSource beolinkListeners resolve).2.length =
        beolinkListeners.length + 1 ∧
      some selfEntity ∈
        (update_beolink beolinkJid none currentSource beolinkListeners resolve).2 := by
  have hmembers :
      (update_beolink beolinkJid none currentSource beolinkListeners resolve).2 =
        some selfEntity :: beolinkListeners.map resolve := by
    unfold update_beolink
    simp only [ite_self]
    rw [if_pos hn, hself]
  refine ⟨hmembers, ?_, ?_⟩
  · rw [hmembers]; simp
  · rw [hmembers]; exact List.mem_cons_self _ _

/-- Claim C1, witness: the amended statement at the device `self.jid` with one
listener `unknown.jid` that resolves to no entity: the list is the device's
own entity ID followed by a null entry, of length 2. -/
theorem update_beolink_leader_members_witness :
    (update_beolink "self.jid" none none ["unknown.jid"] toyResolve).2 =
        some "media_player.self_device" :: ["unknown.jid"].map toyResolve ∧
      (update_beolink "self.jid" none none ["unknown.jid"] toyResolve).2.length =
        ["unknown.jid"].length + 1 ∧
      some "media_player.self_device" ∈
        (update_beolink "self.jid" none none ["unknown.jid"] toyResolve).2 :=
  update_beolink_leader_members "self.jid" none ["unknown.jid"] toyResolve
    "media_player.self_device" (by decide) rfl

/-- Claim C2, counterexample: a playback-metadata update whose `remote_leader`
is non-null but whose `title` echoes the line-in source makes the `source`
property return line-in, so the "temp fix" in `_update_beolink` discards the
remote leader: the device's resolved role is not listener (the stored remote
leader is null) and the group-members list is empty, not leader plus self.
The claim as stated is false on the code. -/
theorem beolink_listener_counterexample :
    (PlaybackContentMetadata.mk (some SOURCE_ENUM_lineIn) none
        (some ⟨"leader.jid", "Leader"⟩)).remoteLeader ≠ none ∧
      update_beolink_from_metadata "self.jid"
        (PlaybackContentMetadata.mk (some SOURCE_ENUM_lineIn) none
          (some ⟨"leader.jid", "Leader"⟩))
        (SourceChange.mk none none) [] toyResolve = (none, []) := by
  refine ⟨?_, rfl⟩
  intro h
  cases h

/-- Claim C2, amended: for every playback-metadata update whose
`remote_leader` field is non-null, provided the computed source is neither
line-in nor the URI streamer (otherwise a workaround for stale vendor
metadata resets the remote leader to null), the Beolink recomputation stores
the non-null remote leader and produces a group-members list with exactly two
entries: the leader's resolved entity ID and the device's own resolved entity
ID. -/
theorem update_beolink_listener_members (beolinkJid : String)
    (metadata : PlaybackContentMetadata) (sourceChange : SourceChange)
    (beolinkListeners : List String) (resolve : String → Option String)
    (leader : BeolinkLeader)
    (hleader : metadata.remoteLeader = some leader)
    (hsrc1 : sourceProperty metadata sourceChange ≠ some SOURCE_ENUM_lineIn)
    (hsrc2 : sourceProperty metadata sourceChange ≠ some SOURCE_ENUM_uriStreamer) :
    update_beolink_from_metadata beolinkJid metadata sourceChange beolinkListeners resolve =
        (some leader, [resolve leader.jid, resolve beolinkJid]) ∧
      (update_beolink_from_metadata beolinkJid metadata sourceChange beolinkListeners
          resolve).2.length = 2 := by
  have h : update_beolink_from_metadata beolinkJid metadata sourceChange beolinkListeners
      resolve = (some leader, [resolve leader.jid, resolve beolinkJid]) := by
    unfold update_beolink_from_metadata update_beolink
    rw [hleader, if_neg]
    rintro (h | h)
    · exact hsrc1 h
    · exact hsrc2 h
  exact ⟨h, by rw [h]; rfl⟩

/-- Claim C2, witness: the amended statement at a metadata update carrying the
remote leader `leader.jid` with no source overrides in effect: the stored
leader is non-null and the group-members list is exactly the two resolved
entries. -/
theorem update_beolink_listener_members_witness :
    update_beolink_from_metadata "self.jid"
        (PlaybackContentMetadata.mk none none (some ⟨"leader.jid", "Leader"⟩))
        (SourceChange.mk none none) [] toyResolve =
        (some ⟨"leader.jid", "Leader"⟩, [toyResolve "leader.jid", toyResolve "self.jid"]) ∧
      (update_beolink_from_metadata "self.jid"
          (PlaybackContentMetadata.mk none none (some ⟨"leader.jid", "Leader"⟩))
          (SourceChange.mk none none) [] toyResolve).2.length = 2 :=
  update_beolink_listener_members "self.jid"
    (PlaybackContentMetadata.mk none none (some ⟨"leader.jid", "Leader"⟩))
    (SourceChange.mk none none) [] toyResolve ⟨"leader.jid", "Leader"⟩ rfl
    (by decide) (by decide)

/-- Helper: the warning actions produced while resolving group members contain
no expand request. -/
theorem filter_expand_warn_list (resolveJid : String → Option String) (l : List String) :
    ((l.flatMap (fun member =>
      match resolveJid member with
      | none => [Action.warnLog ("Error adding " ++ member ++ " to group")]
      | some _ => [])).filter isExpandAction) = [] := by
  induction l with
  | nil => rfl
  | cons head tail ih =>
    rw [List.flatMap_cons, List.filter_append, ih]
    rcases h : resolveJid head with _ | jid <;> simp [isExpandAction]

/-- Helper: the expand-then-sleep sequence contains exactly one expand request
per JID, in order. -/
theorem filter_expand_expand_list (jids : List String) :
    ((jids.flatMap (fun jid => [Action.postBeolinkExpand jid, Action.sleepOneSecond])).filter
      isExpandAction) = jids.map Action.postBeolinkExpand := by
  induction jids with
  | nil => rfl
  | cons head tail ih =>
    rw [List.flatMap_cons, List.filter_append, ih]
    simp [isExpandAction]

/-- Claim C7: a group-join request with no target entities makes exactly the
one `join_latest_beolink_experience` call and no expand request; with targets
whose resolved JIDs all pass the SDK validity check (a string failing
`check_valid_jid` is not a multi-room identifier), every unresolvable target
produces one warning while the rest are still processed, and then each
resolved JID receives exactly one expand request followed by the fixed
1-second delay. -/
theorem join_players_spec (resolveJid : String → Option String) (validJid : String → Bool)
    (groupMembers : List String)
    (hvalid : ∀ jid ∈ groupMembers.filterMap resolveJid, validJid jid = true) :
    (groupMembers = [] →
      async_join_players resolveJid validJid groupMembers =
          [.joinLatestBeolinkExperience] ∧
        (async_join_players resolveJid validJid groupMembers).filter isExpandAction = []) ∧
    (groupMembers ≠ [] →
      async_join_players resolveJid validJid groupMembers =
          (groupMembers.flatMap (fun member =>
            match resolveJid member with
            | none => [Action.warnLog ("Error adding " ++ member ++ " to group")]
            | some _ => [])) ++
            (groupMembers.filterMap resolveJid).flatMap
              (fun jid => [.postBeolinkExpand jid, .sleepOneSecond]) ∧
        (async_join_players resolveJid validJid groupMembers).filter isExpandAction =
          (groupMembers.filterMap resolveJid).map Action.postBeolinkExpand) := by
  constructor
  · rintro rfl
    exact ⟨rfl, rfl⟩
  · intro hne
    have hlen : ¬ groupMembers.length = 0 := fun h => hne (List.length_eq_zero.1 h)
    have hfind : (groupMembers.filterMap resolveJid).find? (fun jid => !validJid jid) =
        none := by
      rw [List.find?_eq_none]
      intro jid hjid hcontra
      rw [hvalid jid hjid] at hcontra
      simp at hcontra
    have heq : async_join_players resolveJid validJid groupMembers =
        (groupMembers.flatMap (fun member =>
          match resolveJid member with
          | none => [Action.warnLog ("Error adding " ++ member ++ " to group")]
          | some _ => [])) ++
          (groupMembers.filterMap resolveJid).flatMap
            (fun jid => [.postBeolinkExpand jid, .sleepOneSecond]) := by
      unfold async_join_players
      rw [if_neg hlen]
      unfold async_beolink_expand
      rw [hfind]
    refine ⟨heq, ?_⟩
    rw [heq, List.filter_append, filter_expand_warn_list, filter_expand_expand_list]
    rfl

/-- Claim C7, witness: the non-empty branch evaluated at the two targets
`media_player.a` (which resolves) and `media_player.b` (which does not): one
warning for the unresolvable target, then one expand request with its
1-second delay for the resolved JID. -/
theorem join_players_spec_witness :
    async_join_players toyJoinResolve toyAllValid ["media_player.a", "media_player.b"] =
      [Action.warnLog "Error adding media_player.b to group",
        Action.postBeolinkExpand "1111.1111111.11111111@products.bang-olufsen.com",
        Action.sleepOneSecond] := by
  have h := (join_players_spec toyJoinResolve toyAllValid
    ["media_player.a", "media_player.b"] (fun jid _ => rfl)).2 (by decide)
  rw [h.1]
  rfl

/-- Claim C8: selecting a source whose label is absent from the catalog logs
exactly one error and issues no client call; a label present in the catalog
resolves to the first catalog key carrying it, and exactly one client call is
issued — `set_active_source` when the label is in the audio catalog,
`post_remote_trigger` otherwise. -/
theorem select_source_spec (sources audioSources : List (String × String))
    (sourceLabel : String) :
    (sourceLabel ∉ sources.map Prod.snd →
      async_select_source sources audioSources sourceLabel =
          [.errorLog ("Invalid source: " ++ sourceLabel)] ∧
        (async_select_source sources audioSources sourceLabel).filter isClientCall = []) ∧
    (sourceLabel ∈ sources.map Prod.snd →
      (sources.find? (fun p => p.2 == sourceLabel)).isSome = true) ∧
    (∀ key foundLabel, sources.find? (fun p => p.2 == sourceLabel) = some (key, foundLabel) →
      async_select_source sources audioSources sourceLabel =
          [if (audioSources.map Prod.snd).contains sourceLabel then
            Action.setActiveSource key
          else Action.postRemoteTrigger key] ∧
        ((async_select_source sources audioSources sourceLabel).filter
          isClientCall).length = 1) := by
  refine ⟨?_, ?_, ?_⟩
  · intro hmem
    have hc : (sources.map Prod.snd).contains sourceLabel = false := by
      simpa using hmem
    constructor
    · unfold async_select_source
      rw [hc]
      rfl
    · unfold async_select_source
      rw [hc]
      rfl
  · intro hmem
    rw [List.find?_isSome]
    obtain ⟨p, hp, hlabel⟩ := List.mem_map.1 hmem
    exact ⟨p, hp, by simpa using hlabel⟩
  · intro key foundLabel hfind
    have hpl : foundLabel = sourceLabel := by
      have := List.find?_some hfind
      simpa using this
    have hmem : sourceLabel ∈ sources.map Prod.snd := by
      subst hpl
      exact List.mem_map.2 ⟨(key, foundLabel), List.mem_of_find?_eq_some hfind, rfl⟩
    have hc : (sources.map Prod.snd).contains sourceLabel = true := by
      simpa using hmem
    have heq : async_select_source sources audioSources sourceLabel =
        [if (audioSources.map Prod.snd).contains sourceLabel then
          Action.setActiveSource key
        else Action.postRemoteTrigger key] := by
      unfold async_select_source
      rw [hc, hfind]
      rcases h : (audioSources.map Prod.snd).contains sourceLabel <;> simp [h]
    refine ⟨heq, ?_⟩
    rw [heq]
    rcases h : (audioSources.map Prod.snd).contains sourceLabel <;>
      simp [h, isClientCall]

/-- Claim C8, witness: selecting the video label `HDMI A` from the concrete
catalog resolves to key `key2` and issues exactly the one
`post_remote_trigger` call. -/
theorem select_source_spec_witness :
    async_select_source toySources toyAudioSources "HDMI A" =
        [if (toyAudioSources.map Prod.snd).contains "HDMI A" then
          Action.setActiveSource "key2"
        else Action.postRemoteTrigger "key2"] ∧
      ((async_select_source toySources toyAudioSources "HDMI A").filter
        isClientCall).length = 1 :=
  (select_source_spec toySources toyAudioSources "HDMI A").2.2 "key2" "HDMI A" rfl

/-- Helper: a lookup misses every association list whose keys avoid the
queried label. -/
theorem lookup_eq_none_of_not_mem_fst (l : List (String × String)) (lab : String)
    (h : lab ∉ l.map Prod.fst) : l.lookup lab = none := by
  rw [List.lookup_eq_none_iff]
  intro p hp
  simp only [bne_iff_ne, ne_eq]
  intro hc
  exact h (List.mem_map.2 ⟨p, hp, hc.symm⟩)

/-- Helper: processing more scenes never removes a label from the
listening-position catalog. -/
theorem aux_mem_fst_mono (scenes : List (String × Scene))
    (positions warnings : List (String × String)) (lab : String)
    (h : lab ∈ positions.map Prod.fst) :
    lab ∈ (update_listening_positions_aux positions warnings scenes).1.map Prod.fst := by
  induction scenes generalizing positions warnings with
  | nil => exact h
  | cons head rest ih =>
    obtain ⟨sceneKey, scene⟩ := head
    obtain ⟨tagsOpt, labelOpt⟩ := scene
    rcases tagsOpt with _ | tags <;> rcases labelOpt with _ | label <;>
      simp only [update_listening_positions_aux]
    · exact ih positions warnings h
    · exact ih positions warnings h
    · exact ih positions warnings h
    · rcases hc : tags.contains "listeningposition" <;> simp only [Bool.false_eq_true,
        if_false, if_true]
      · exact ih positions warnings h
      · rcases hm : (positions.map Prod.fst).contains label <;> simp only
          [Bool.false_eq_true, if_false, if_true]
        · refine ih (positions ++ [(label, sceneKey)]) warnings ?_
          rw [List.map_append]
          exact List.mem_append_left _ h
        · exact ih positions (warnings ++ [(label, sceneKey)]) h

/-- Helper: processing more scenes never removes a logged warning. -/
theorem aux_warnings_mono (scenes : List (String × Scene))
    (positions warnings : List (String × String)) (w : String × String)
    (h : w ∈ warnings) :
    w ∈ (update_listening_positions_aux positions warnings scenes).2 := by
  induction scenes generalizing positions warnings with
  | nil => exact h
  | cons head rest ih =>
    obtain ⟨sceneKey, scene⟩ := head
    obtain ⟨tagsOpt, labelOpt⟩ := scene
    rcases tagsOpt with _ | tags <;> rcases labelOpt with _ | label <;>
      simp only [update_listening_positions_aux]
    · exact ih positions warnings h
    · exact ih positions warnings h
    · exact ih positions warnings h
    · rcases hc : tags.contains "listeningposition" <;> simp only [Bool.false_eq_true,
        if_false, if_true]
      · exact ih positions warnings h
      · rcases hm : (positions.map Prod.fst).contains label <;> simp only
          [Bool.false_eq_true, if_false, if_true]
        · exact ih (positions ++ [(label, sceneKey)]) warnings h
        · exact ih positions (warnings ++ [(label, sceneKey)]) (List.mem_append_left _ h)

/-- Helper: the rebuilt catalog keeps its label list duplicate-free. -/
theorem aux_nodup (scenes : List (String × Scene))
    (positions warnings : List (String × String))
    (h : (positions.map Prod.fst).Nodup) :
    ((update_listening_positions_aux positions warnings scenes).1.map Prod.fst).Nodup := by
  induction scenes generalizing positions warnings with
  | nil => exact h
  | cons head rest ih =>
    obtain ⟨sceneKey, scene⟩ := head
    obtain ⟨tagsOpt, labelOpt⟩ := scene
    rcases tagsOpt with _ | tags <;> rcases labelOpt with _ | label <;>
      simp only [update_listening_positions_aux]
    · exact ih positions warnings h
    · exact ih positions warnings h
    · exact ih positions warnings h
    · rcases hc : tags.contains "listeningposition" <;> simp only [Bool.false_eq_true,
        if_false, if_true]
      · exact ih positions warnings h
      · rcases hm : (positions.map Prod.fst).contains label <;> simp only
          [Bool.false_eq_true, if_false, if_true]
        · refine ih (positions ++ [(label, sceneKey)]) warnings ?_
          have hnot : label ∉ positions.map Prod.fst := by
            intro hmem
            have : (positions.map Prod.fst).contains label = true := by simpa using hmem
            rw [hm] at this
            cases this
          rw [List.map_append]
          simp [List.nodup_append, h, hnot]
        · exact ih positions (warnings ++ [(label, sceneKey)]) h

/-- Helper: processing a concatenation of scene lists is processing the first
list and continuing from its resulting state. -/
theorem aux_append (xs ys : List (String × Scene))
    (positions warnings : List (String × String)) :
    update_listening_positions_aux positions warnings (xs ++ ys) =
      update_listening_positions_aux
        (update_listening_positions_aux positions warnings xs).1
        (update_listening_positions_aux positions warnings xs).2 ys := by
  induction xs generalizing positions warnings with
  | nil => rfl
  | cons head rest ih =>
    obtain ⟨sceneKey, scene⟩ := head
    obtain ⟨tagsOpt, labelOpt⟩ := scene
    rcases tagsOpt with _ | tags <;> rcases labelOpt with _ | label <;>
      simp only [List.cons_append, update_listening_positions_aux]
    · exact ih positions warnings
    · exact ih positions warnings
    · exact ih positions warnings
    · rcases hc : tags.contains "listeningposition" <;> simp only [Bool.false_eq_true,
        if_false, if_true]
      · exact ih positions warnings
      · rcases hm : (positions.map Prod.fst).contains label <;> simp only
          [Bool.false_eq_true, if_false, if_true]
        · exact ih (positions ++ [(label, sceneKey)]) warnings
        · exact ih positions (warnings ++ [(label, sceneKey)])

/-- Helper: a qualifying scene whose label is already in the catalog when it
is encountered is recorded in the duplicate-name warnings. -/
theorem aux_warn_of_seen (scenes : List (String × Scene))
    (positions warnings : List (String × String)) (sceneKey lab : String) (scene : Scene)
    (hseen : lab ∈ positions.map Prod.fst)
    (hmem : (sceneKey, scene) ∈ scenes)
    (hqual : listeningPositionQualifies scene = true)
    (hlabel : scene.label = some lab) :
    (lab, sceneKey) ∈ (update_listening_positions_aux positions warnings scenes).2 := by
  induction scenes generalizing positions warnings with
  | nil => cases hmem
  | cons head rest ih =>
    obtain ⟨headKey, headScene⟩ := head
    rcases List.mem_cons.1 hmem with hhead | htail
    · injection hhead with hk hs
      subst hk
      subst hs
      obtain ⟨tagsOpt, labelOpt⟩ := scene
      rcases tagsOpt with _ | tags
      · simp [listeningPositionQualifies] at hqual
      · rcases labelOpt with _ | label
        · simp [listeningPositionQualifies] at hqual
        · have hlabeq : label = lab := by
            simpa using hlabel
          subst hlabeq
          have hc : tags.contains "listeningposition" = true := by
            simpa [listeningPositionQualifies] using hqual
          have hm : (positions.map Prod.fst).contains label = true := by
            simpa using hseen
          simp only [update_listening_positions_aux, hc, hm, if_true]
          exact aux_warnings_mono rest positions (warnings ++ [(label, sceneKey)])
            (label, sceneKey) (List.mem_append_right _ (List.mem_cons_self _ _))
    · obtain ⟨tagsOpt, labelOpt⟩ := headScene
      rcases tagsOpt with _ | tags <;> rcases labelOpt with _ | label <;>
        simp only [update_listening_positions_aux]
      · exact ih positions warnings hseen htail
      · exact ih positions warnings hseen htail
      · exact ih positions warnings hseen htail
      · rcases hc : tags.contains "listeningposition" <;> simp only [Bool.false_eq_true,
          if_false, if_true]
        · exact ih positions warnings hseen htail
        · rcases hm : (positions.map Prod.fst).contains label <;> simp only
            [Bool.false_eq_true, if_false, if_true]
          · refine ih (positions ++ [(label, headKey)]) warnings ?_ htail
            rw [List.map_append]
            exact List.mem_append_left _ hseen
          · exact ih positions (warnings ++ [(label, headKey)]) hseen htail

/-- Helper: after processing a list containing a qualifying scene with a given
label, that label is in the catalog. -/
theorem aux_label_present (scenes : List (String × Scene))
    (positions warnings : List (String × String)) (sceneKey lab : String) (scene : Scene)
    (hmem : (sceneKey, scene) ∈ scenes)
    (hqual : listeningPositionQualifies scene = true)
    (hlabel : scene.label = some lab) :
    lab ∈ (update_listening_positions_aux positions warnings scenes).1.map Prod.fst := by
  induction scenes generalizing positions warnings with
  | nil => cases hmem
  | cons head rest ih =>
    obtain ⟨headKey, headScene⟩ := head
    rcases List.mem_cons.1 hmem with hhead | htail
    · injection hhead with hk hs
      subst hk
      subst hs
      obtain ⟨tagsOpt, labelOpt⟩ := scene
      rcases tagsOpt with _ | tags
      · simp [listeningPositionQualifies] at hqual
      · rcases labelOpt with _ | label
        · simp [listeningPositionQualifies] at hqual
        · have hlabeq : label = lab := by
            simpa using hlabel
          subst hlabeq
          have hc : tags.contains "listeningposition" = true := by
            simpa [listeningPositionQualifies] using hqual
          simp only [update_listening_positions_aux, hc, if_true]
          rcases hm : (positions.map Prod.fst).contains label <;> simp only
            [Bool.false_eq_true, if_false, if_true]
          · refine aux_mem_fst_mono rest (positions ++ [(label, sceneKey)]) warnings
              label ?_
            rw [List.map_append]
            exact List.mem_append_right _ (List.mem_cons_self _ _)
          · exact aux_mem_fst_mono rest positions (warnings ++ [(label, sceneKey)])
              label (by simpa using hm)
    · obtain ⟨tagsOpt, labelOpt⟩ := headScene
      rcases tagsOpt with _ | tags <;> rcases labelOpt with _ | label <;>
        simp only [update_listening_positions_aux]
      · exact ih positions warnings htail
      · exact ih positions warnings htail
      · exact ih positions warnings htail
      · rcases hc : tags.contains "listeningposition" <;> simp only [Bool.false_eq_true,
          if_false, if_true]
        · exact ih positions warnings htail
        · rcases hm : (positions.map Prod.fst).contains label <;> simp only
            [Bool.false_eq_true, if_false, if_true]
          · exact ih (positions ++ [(label, headKey)]) warnings htail
          · exact ih positions (warnings ++ [(label, headKey)]) htail

/-- Helper: on a scene with both fields present, the qualification test is the
tag membership check. -/
theorem listeningPositionQualifies_eq (tags : List String) (label : String) :
    listeningPositionQualifies (Scene.mk (some tags) (some label)) =
      tags.contains "listeningposition" := rfl

/-- Helper: the rebuilt catalog answers a label lookup with the entry already
present when the rebuild started, or else with the key of the first-seen
qualifying scene carrying that label. -/
theorem aux_lookup (scenes : List (String × Scene))
    (positions warnings : List (String × String)) (lab : String) :
    (update_listening_positions_aux positions warnings scenes).1.lookup lab =
      (positions.lookup lab).or
        ((scenes.find? (fun p =>
          listeningPositionQualifies p.2 && p.2.label == some lab)).map Prod.fst) := by
  induction scenes generalizing positions warnings with
  | nil => simp [update_listening_positions_aux]
  | cons head rest ih =>
    obtain ⟨sceneKey, scene⟩ := head
    obtain ⟨tagsOpt, labelOpt⟩ := scene
    rcases tagsOpt with _ | tags <;> rcases labelOpt with _ | label <;>
      simp only [update_listening_positions_aux]
    · rw [List.find?_cons_of_neg _ (by simp [listeningPositionQualifies])]
      exact ih positions warnings
    · rw [List.find?_cons_of_neg _ (by simp [listeningPositionQualifies])]
      exact ih positions warnings
    · rw [List.find?_cons_of_neg _ (by simp [listeningPositionQualifies])]
      exact ih positions warnings
    · rcases hc : tags.contains "listeningposition" with _ | _ <;> simp only
        [Bool.false_eq_true, if_false, if_true]
      · rw [List.find?_cons_of_neg _ (by
          simp only [listeningPositionQualifies_eq, hc, Bool.false_and]
          exact Bool.false_ne_true)]
        exact ih positions warnings
      · by_cases hl : label = lab
        · subst hl
          rw [List.find?_cons_of_pos _ (by
            simp only [listeningPositionQualifies_eq, hc, Bool.true_and, beq_self_eq_true])]
          rcases hm : (positions.map Prod.fst).contains label with _ | _ <;> simp only
            [Bool.false_eq_true, if_false, if_true]
          · rw [ih (positions ++ [(label, sceneKey)]) warnings]
            have hnone : positions.lookup label = none := by
              refine lookup_eq_none_of_not_mem_fst positions label ?_
              intro hmem
              have hcontra : (positions.map Prod.fst).contains label = true := by
                simpa using hmem
              rw [hm] at hcontra
              cases hcontra
            rw [List.lookup_append, hnone, List.lookup_cons_self]
            rfl
          · rw [ih positions (warnings ++ [(label, sceneKey)])]
            have hmem : label ∈ positions.map Prod.fst := by simpa using hm
            obtain ⟨p, hp, hfst⟩ := List.mem_map.1 hmem
            have hsome : (positions.lookup label).isSome = true := by
              rw [List.lookup_isSome_iff]
              exact ⟨p, hp, by simp [hfst]⟩
            obtain ⟨v, hv⟩ := Option.isSome_iff_exists.1 hsome
            rw [hv]
            rfl
        · rw [List.find?_cons_of_neg _ (by
            simp only [listeningPositionQualifies_eq, hc, Bool.true_and, beq_iff_eq,
              Option.some.injEq]
            exact hl)]
          rcases hm : (positions.map Prod.fst).contains label with _ | _ <;> simp only
            [Bool.false_eq_true, if_false, if_true]
          · rw [ih (positions ++ [(label, sceneKey)]) warnings, List.lookup_append]
            have hsingle : [(label, sceneKey)].lookup lab = none := by
              refine lookup_eq_none_of_not_mem_fst _ lab ?_
              simp [Ne.symm hl]
            rw [hsingle, Option.or_none]
          · exact ih positions (warnings ++ [(label, sceneKey)])

/-- Claim C9: when the scene catalog contains two listening-position scenes
carrying the same label, the rebuilt catalog is duplicate-free in its labels,
the label still resolves to the key of the first-encountered qualifying
scene, and the second-encountered scene's `(label, key)` pair is recorded in
the duplicate-name warnings (it is dropped from the catalog). -/
theorem listening_positions_dedup (scenes front back : List (String × Scene))
    (k1 k2 lab : String) (s1 s2 : Scene)
    (hsplit : scenes = front ++ (k2, s2) :: back)
    (hfirst : scenes.find? (fun p =>
      listeningPositionQualifies p.2 && p.2.label == some lab) = some (k1, s1))
    (hk1 : (k1, s1) ∈ front)
    (hq2 : listeningPositionQualifies s2 = true)
    (hl2 : s2.label = some lab) :
    ((update_listening_positions scenes).1.map Prod.fst).Nodup ∧
      (update_listening_positions scenes).1.lookup lab = some k1 ∧
      (lab, k2) ∈ (update_listening_positions scenes).2 := by
  have hpred := List.find?_some hfirst
  simp only [Bool.and_eq_true, beq_iff_eq] at hpred
  obtain ⟨hq1, hl1⟩ := hpred
  refine ⟨aux_nodup scenes [] [] (by simp), ?_, ?_⟩
  · rw [show update_listening_positions scenes =
      update_listening_positions_aux [] [] scenes from rfl]
    rw [aux_lookup scenes [] [] lab, hfirst]
    rfl
  · rw [show update_listening_positions scenes =
      update_listening_positions_aux [] [] scenes from rfl]
    rw [hsplit, aux_append front ((k2, s2) :: back) [] []]
    refine aux_warn_of_seen ((k2, s2) :: back) _ _ k2 lab s2 ?_
      (List.mem_cons_self _ _) hq2 hl2
    exact aux_label_present front [] [] k1 lab s1 hk1 hq1 hl1

/-- Claim C9, witness: the statement evaluated on the concrete catalog with
two listening-position scenes both labelled `Sofa`: the options are
duplicate-free, `Sofa` resolves to the first scene's key `scene1`, and the
second scene `scene2` is recorded in the duplicate warnings. -/
theorem listening_positions_dedup_witness :
    ((update_listening_positions toyScenes).1.map Prod.fst).Nodup ∧
      (update_listening_positions toyScenes).1.lookup "Sofa" = some "scene1" ∧
      ("Sofa", "scene2") ∈ (update_listening_positions toyScenes).2 :=
  listening_positions_dedup toyScenes [("scene1", ⟨some ["listeningposition"], some "Sofa"⟩)]
    [] "scene1" "scene2" "Sofa" ⟨some ["listeningposition"], some "Sofa"⟩
    ⟨some ["listeningposition"], some "Sofa"⟩ rfl (by decide)
    (List.mem_cons_self _ _) (by decide) rfl

end BangOlufsen
